import Mathlib

/-!
Verification of the line-classification and document-rendering pipeline of
`src/ap.py` (functions `create_docx`, lines 64-76, and `create_pdf`, lines
79-107).  Python strings are modelled as lists of characters; the Python
string primitives used by the two functions (`str.startswith`, `str.replace`
with the concrete patterns `"###"` and `'-'`, `str.strip`, `str.split("\n")`)
are given as executable Lean functions with Python semantics.  The flowing
renderer (`create_docx`) is modelled as the list of document elements it
appends; the paginated renderer (`create_pdf`) as the list of canvas events
it emits (font changes, text draws at coordinates, page breaks) together with
the evolution of the vertical cursor `y`.
-/

/-- A Python string, modelled as its sequence of characters. -/
abbrev Str := List Char

/-- Python `s.startswith(pat)`: `pat` is a prefix of `s`. -/
def startswith : Str → Str → Bool
  | _, [] => true
  | [], _ :: _ => false
  | c :: s, p :: ps => c == p && startswith s ps

/-- Python whitespace as stripped by `str.strip()`:
space, tab, newline, carriage return, vertical tab, form feed. -/
def pyIsSpace (c : Char) : Bool :=
  c == ' ' || c == '\t' || c == '\n' || c == '\r' ||
  c == Char.ofNat 11 || c == Char.ofNat 12

/-- Python `s.strip()`, leading part: drop leading whitespace. -/
def lstrip (s : Str) : Str := s.dropWhile pyIsSpace

/-- Python `s.strip()`, trailing part: drop trailing whitespace. -/
def rstrip (s : Str) : Str := (s.reverse.dropWhile pyIsSpace).reverse

/-- Python `s.strip()`: drop leading and trailing whitespace. -/
def pyStrip (s : Str) : Str := rstrip (lstrip s)

/-- Python `s.replace("###", "")` (source lines 69 and 94): remove every
non-overlapping occurrence of `"###"`, scanning left to right. -/
def removeHash3 : Str → Str
  | '#' :: '#' :: '#' :: s => removeHash3 s
  | c :: s => c :: removeHash3 s
  | [] => []

/-- Python `s.replace('-', '')` (source line 98): remove every `'-'`. -/
def removeDashes : Str → Str
  | '-' :: s => removeDashes s
  | c :: s => c :: removeDashes s
  | [] => []

/-- Python `s.split("\n")` (source lines 67 and 88): split at every newline,
keeping empty pieces; the empty string yields one empty piece. -/
def splitNl : Str → List Str
  | [] => [[]]
  | c :: s =>
    if c == '\n' then [] :: splitNl s
    else
      match splitNl s with
      | [] => [[c]]
      | t :: ts => (c :: t) :: ts

/-- The heading marker `"###"` checked by both renderers. -/
def hash3 : Str := ['#', '#', '#']

/-- The bullet marker `"-"` checked by both renderers. -/
def dash1 : Str := ['-']

/-- The literal `"'s Resume"` appended to the name in both titles
(source lines 66 and 85); the apostrophe is `Char.ofNat 39`. -/
def titleSuffix : Str := Char.ofNat 39 :: 's' :: ' ' :: ('R' :: 'e' :: 's' :: 'u' :: 'm' :: 'e' :: [])

/-- The glyph prefixed to bullet lines by `create_pdf` (source line 98).
The source file holds the UTF-8 bytes C3 A2 E2 82 AC C2 A2 20, i.e. the
three characters U+00E2, U+20AC, U+00A2 followed by a space. -/
def bulletGlyph : Str := [Char.ofNat 0xE2, Char.ofNat 0x20AC, Char.ofNat 0xA2, ' ']

/-- One structural element appended to the flowing (docx) document. -/
inductive DocxElem where
  /-- `doc.add_heading(text, 0)`: the title block (source line 66). -/
  | heading0 (text : Str)
  /-- `doc.add_heading(text, level=1)` (source line 69). -/
  | heading1 (text : Str)
  /-- `doc.add_paragraph(text, style="ListBullet")` (source line 71). -/
  | bulletPara (text : Str)
  /-- `doc.add_paragraph(text)` (source line 73). -/
  | para (text : Str)
deriving DecidableEq

/-- `create_docx` body loop, one line (source lines 68-73). -/
def docxLine (line : Str) : DocxElem :=
  if startswith line hash3 then
    DocxElem.heading1 (pyStrip (removeHash3 line))
  else if startswith line dash1 then
    DocxElem.bulletPara (pyStrip line)
  else
    DocxElem.para (pyStrip line)

/-- `create_docx(resume_text, name)` (source lines 64-76), modelled as the
sequence of elements added to the document: the title heading, then one
element per line of `resume_text.split("\n")`. -/
def create_docx (resume_text : Str) (name : Str) : List DocxElem :=
  DocxElem.heading0 (name ++ titleSuffix) :: (splitNl resume_text).map docxLine

/-- One event emitted to the reportlab canvas by `create_pdf`. -/
inductive PdfEvent where
  /-- `c.setFont(font, size)`. -/
  | setFont (font : String) (size : Nat)
  /-- `c.drawString(x, y, text)`. -/
  | drawString (x : Int) (y : Int) (text : Str)
  /-- `c.showPage()`: finalize the current page, start a new one. -/
  | showPage
deriving DecidableEq

/-- Page height of `letter` (792 points; width is 612). -/
def letterHeight : Int := 792

/-- The drawing part of `create_pdf`'s body loop for one line (source lines
92-103), at cursor position `y1`: the branch on the line's leading
characters, the draw, and the cursor decrement. -/
def pdfDrawLine (y1 : Int) (line : Str) : List PdfEvent × Int :=
  if startswith line hash3 then
    ([PdfEvent.setFont "Helvetica-Bold" 14,
      PdfEvent.drawString 40 y1 (pyStrip (removeHash3 line))], y1 - 20)
  else if startswith line dash1 then
    ([PdfEvent.setFont "Helvetica" 12,
      PdfEvent.drawString 50 y1 (bulletGlyph ++ pyStrip (removeDashes line))], y1 - 15)
  else
    ([PdfEvent.setFont "Helvetica" 12,
      PdfEvent.drawString 40 y1 (pyStrip line)], y1 - 15)

/-- `create_pdf` body loop, one line (source lines 89-103): first the page
break check `if y < 40` (source lines 89-91: `showPage`, cursor reset to
`height - 40`), then the draw branch. -/
def pdfStep (y : Int) (line : Str) : List PdfEvent × Int :=
  if y < 40 then
    (PdfEvent.showPage :: (pdfDrawLine (letterHeight - 40) line).1,
     (pdfDrawLine (letterHeight - 40) line).2)
  else pdfDrawLine y line

/-- `create_pdf` body loop over all lines (source lines 88-103). -/
def pdfBody : List Str → Int → List PdfEvent
  | [], _ => []
  | line :: rest, y => (pdfStep y line).1 ++ pdfBody rest (pdfStep y line).2

/-- `create_pdf(resume_text, name)` (source lines 79-107), modelled as the
sequence of canvas events: title in bold 16 at `y = 792 - 40`, cursor moved
down 30, font reset to Helvetica 12, the per-line loop starting at
`y = 722`, and the final `c.showPage()`. -/
def create_pdf (resume_text : Str) (name : Str) : List PdfEvent :=
  [PdfEvent.setFont "Helvetica-Bold" 16,
   PdfEvent.drawString 40 (letterHeight - 40) (name ++ titleSuffix),
   PdfEvent.setFont "Helvetica" 12]
  ++ pdfBody (splitNl resume_text) (letterHeight - 40 - 30)
  ++ [PdfEvent.showPage]

/-- The structural role of a line, as the spec's ClassifiedLine kind. -/
inductive Kind where
  | heading
  | bullet
  | paragraph
deriving DecidableEq

/-- The kind both renderers assign, read off their shared branch
conditions (source lines 68/70 and 92/96): decided by the raw line's
leading characters, with no trimming first. -/
def lineKind (line : Str) : Kind :=
  if startswith line hash3 then Kind.heading
  else if startswith line dash1 then Kind.bullet
  else Kind.paragraph

/-- The kind of a flowing-document element, read off its constructor. -/
def DocxElem.kind : DocxElem → Kind
  | DocxElem.heading0 _ => Kind.heading
  | DocxElem.heading1 _ => Kind.heading
  | DocxElem.bulletPara _ => Kind.bullet
  | DocxElem.para _ => Kind.paragraph

/-- The text carried by a flowing-document element. -/
def DocxElem.text : DocxElem → Str
  | DocxElem.heading0 t => t
  | DocxElem.heading1 t => t
  | DocxElem.bulletPara t => t
  | DocxElem.para t => t

/-- Is this event a text draw? -/
def isDraw : PdfEvent → Bool
  | PdfEvent.drawString _ _ _ => true
  | _ => false

/-- Is this event a page break? -/
def isShowPage : PdfEvent → Bool
  | PdfEvent.showPage => true
  | _ => false

/-- Text of the first draw event, if any. -/
def firstDrawText : List PdfEvent → Option Str
  | [] => none
  | PdfEvent.drawString _ _ t :: _ => some t
  | _ :: es => firstDrawText es

/-- Horizontal position of the first draw event, if any. -/
def firstDrawX : List PdfEvent → Option Int
  | [] => none
  | PdfEvent.drawString x _ _ :: _ => some x
  | _ :: es => firstDrawX es

/-- Vertical position of the first draw event, if any. -/
def firstDrawY : List PdfEvent → Option Int
  | [] => none
  | PdfEvent.drawString _ y _ :: _ => some y
  | _ :: es => firstDrawY es

/-- Font and size of the first font selection, if any. -/
def firstSetFont : List PdfEvent → Option (String × Nat)
  | [] => none
  | PdfEvent.setFont f s :: _ => some (f, s)
  | _ :: es => firstSetFont es

/-- Every draw event in the list sits at vertical position `≥ m`. -/
def drawsAtOrAbove (m : Int) (es : List PdfEvent) : Bool :=
  es.all fun e =>
    match e with
    | PdfEvent.drawString _ y _ => decide (m ≤ y)
    | _ => true

/-- Number of draw events in the list. -/
def countDraws (es : List PdfEvent) : Nat := (es.filter isDraw).length

/-- Is this event the bold size-14 font selection of the heading branch? -/
def isBold14 : PdfEvent → Bool
  | PdfEvent.setFont f s => f == "Helvetica-Bold" && s == 14
  | _ => false

/-- Is this event a draw at the bullet indent `x = 50`? -/
def isDrawAt50 : PdfEvent → Bool
  | PdfEvent.drawString x _ _ => x == 50
  | _ => false

/-- The kind of line a single-line event batch of `create_pdf` renders,
read off the observable style: bold size-14 font means heading, a draw
indented to `x = 50` means bullet, anything else paragraph. -/
def kindOfPdfEvents (es : List PdfEvent) : Kind :=
  if es.any isBold14 then Kind.heading
  else if es.any isDrawAt50 then Kind.bullet
  else Kind.paragraph

/-- Content of a heading line as both renderers compute it (source lines 69
and 94): every occurrence of `"###"` removed, then whitespace stripped. -/
def headingContent (line : Str) : Str := pyStrip (removeHash3 line)

/-- The flowing-renderer element for one line, stated as a standalone
classification: heading lines (raw prefix `"###"`) become level-1 headings
with `headingContent`; bullet lines (raw prefix `"-"`) become list-bullet
paragraphs whose text is the whole stripped line, marker kept; everything
else becomes a plain stripped paragraph. -/
def flowElemSpec (line : Str) : DocxElem :=
  match lineKind line with
  | Kind.heading => DocxElem.heading1 (headingContent line)
  | Kind.bullet => DocxElem.bulletPara (pyStrip line)
  | Kind.paragraph => DocxElem.para (pyStrip line)

/-- The text the paginated renderer draws for one line, stated as a
standalone classification: heading lines draw `headingContent`; bullet
lines draw the bullet glyph followed by the line with every `'-'` removed
and then stripped; everything else draws the stripped line. -/
def pagedTextSpec (line : Str) : Str :=
  match lineKind line with
  | Kind.heading => headingContent line
  | Kind.bullet => bulletGlyph ++ pyStrip (removeDashes line)
  | Kind.paragraph => pyStrip line

/-- Cursor advance per line kind in `create_pdf` (source lines 95, 99, 103). -/
def advanceFor : Kind → Int
  | Kind.heading => 20
  | Kind.bullet => 15
  | Kind.paragraph => 15

/-- Font selected per line kind in `create_pdf` (source lines 93, 97, 101). -/
def fontFor : Kind → String × Nat
  | Kind.heading => ("Helvetica-Bold", 14)
  | Kind.bullet => ("Helvetica", 12)
  | Kind.paragraph => ("Helvetica", 12)

/-- Horizontal draw position per line kind in `create_pdf` (source lines
94, 98, 102). -/
def drawXFor : Kind → Int
  | Kind.heading => 40
  | Kind.bullet => 50
  | Kind.paragraph => 40

/-- The three-line example input from the spec's testable properties. -/
def demoResume : Str := "### Summary\n- Did X\nPlain text".data

-- Sanity checks on the Python string primitives (kept as propositions
-- proved by evaluation; they double as regression tests of the model).

example : splitNl ['a', '\n', 'b'] = [['a'], ['b']] := by decide

example : splitNl [] = [[]] := by decide

example : removeHash3 ['#', '#', '#', '#'] = ['#'] := by decide

example : pyStrip [' ', 'a', ' '] = ['a'] := by decide

example : docxLine ('#' :: '#' :: '#' :: ' ' :: 'S' :: []) = DocxElem.heading1 ['S'] := by decide

theorem drawsAtOrAbove_append (m : Int) (a b : List PdfEvent) :
    drawsAtOrAbove m (a ++ b) = (drawsAtOrAbove m a && drawsAtOrAbove m b) := by
  simp [drawsAtOrAbove, List.all_append]

theorem pdfDrawLine_drawsAtOrAbove (y1 : Int) (line : Str) (h : 40 ≤ y1) :
    drawsAtOrAbove 40 (pdfDrawLine y1 line).1 = true := by
  unfold pdfDrawLine drawsAtOrAbove
  by_cases h1 : startswith line hash3 <;> by_cases h2 : startswith line dash1 <;>
    simp [h1, h2, h]

theorem pdfStep_drawsAtOrAbove (y : Int) (line : Str) :
    drawsAtOrAbove 40 (pdfStep y line).1 = true := by
  unfold pdfStep
  by_cases hy : y < 40
  · simp only [hy, if_true]
    have := pdfDrawLine_drawsAtOrAbove (letterHeight - 40) line (by norm_num [letterHeight])
    simpa [drawsAtOrAbove] using this
  · simp only [hy, if_false]
    exact pdfDrawLine_drawsAtOrAbove y line (by omega)

theorem pdfBody_drawsAtOrAbove : ∀ (lines : List Str) (y : Int),
    drawsAtOrAbove 40 (pdfBody lines y) = true := by
  intro lines
  induction lines with
  | nil => intro y; rfl
  | cons line rest ih =>
    intro y
    simp only [pdfBody, drawsAtOrAbove_append, pdfStep_drawsAtOrAbove, ih, Bool.and_self]

/-- C3: every text draw emitted by `create_pdf` happens at a cursor
position at or above the bottom margin 40: no content is ever drawn below
the margin without a page break having reset the cursor first. -/
theorem create_pdf_draws_at_or_above_margin (text name : Str) :
    drawsAtOrAbove 40 (create_pdf text name) = true := by
  unfold create_pdf
  rw [drawsAtOrAbove_append, drawsAtOrAbove_append, pdfBody_drawsAtOrAbove]
  rfl

theorem countDraws_append (a b : List PdfEvent) :
    countDraws (a ++ b) = countDraws a + countDraws b := by
  simp [countDraws, List.filter_append]

theorem pdfDrawLine_countDraws (y1 : Int) (line : Str) :
    countDraws (pdfDrawLine y1 line).1 = 1 := by
  unfold pdfDrawLine countDraws
  by_cases h1 : startswith line hash3 <;> by_cases h2 : startswith line dash1 <;>
    simp [h1, h2, isDraw]

theorem pdfStep_countDraws (y : Int) (line : Str) :
    countDraws (pdfStep y line).1 = 1 := by
  unfold pdfStep
  by_cases hy : y < 40
  · simp only [hy, if_true]
    have := pdfDrawLine_countDraws (letterHeight - 40) line
    simpa [countDraws, isDraw] using this
  · simp only [hy, if_false]
    exact pdfDrawLine_countDraws y line

theorem pdfBody_countDraws : ∀ (lines : List Str) (y : Int),
    countDraws (pdfBody lines y) = lines.length := by
  intro lines
  induction lines with
  | nil => intro y; rfl
  | cons line rest ih =>
    intro y
    simp only [pdfBody, countDraws_append, pdfStep_countDraws, ih, List.length_cons]
    omega

theorem pdfDrawLine_firstDrawText (y1 : Int) (line : Str) :
    firstDrawText (pdfDrawLine y1 line).1 = some (pagedTextSpec line) := by
  unfold pdfDrawLine pagedTextSpec lineKind
  by_cases h1 : startswith line hash3 <;> by_cases h2 : startswith line dash1 <;>
    simp [h1, h2, firstDrawText, headingContent]

theorem pdfStep_firstDrawText (y : Int) (line : Str) :
    firstDrawText (pdfStep y line).1 = some (pagedTextSpec line) := by
  unfold pdfStep
  by_cases hy : y < 40
  · simp only [hy, if_true]
    have := pdfDrawLine_firstDrawText (letterHeight - 40) line
    simpa [firstDrawText] using this
  · simp only [hy, if_false]
    exact pdfDrawLine_firstDrawText y line

theorem docxLine_kind (line : Str) : (docxLine line).kind = lineKind line := by
  unfold docxLine lineKind
  by_cases h1 : startswith line hash3 <;> by_cases h2 : startswith line dash1 <;>
    simp [h1, h2, DocxElem.kind]

theorem pdfDrawLine_kind (y1 : Int) (line : Str) :
    kindOfPdfEvents (pdfDrawLine y1 line).1 = lineKind line := by
  have hfont : (("Helvetica" : String) == "Helvetica-Bold") = false := by decide
  unfold pdfDrawLine kindOfPdfEvents lineKind
  by_cases h1 : startswith line hash3 <;> by_cases h2 : startswith line dash1 <;>
    simp [h1, h2, isBold14, isDrawAt50, hfont]

theorem pdfStep_kind (y : Int) (line : Str) :
    kindOfPdfEvents (pdfStep y line).1 = lineKind line := by
  unfold pdfStep
  by_cases hy : y < 40
  · simp only [hy, if_true]
    rw [← pdfDrawLine_kind (letterHeight - 40) line]
    unfold kindOfPdfEvents
    simp [isBold14, isDrawAt50]
  · simp only [hy, if_false]
    exact pdfDrawLine_kind y line

/-- C9: the flowing and the paginated renderer assign the same kind to
every input line: the duplicated leading-character branch conditions
(source lines 68/70 versus 92/96) are extensionally equal as
classification functions. -/
theorem renderers_agree_on_kind (line : Str) (y : Int) :
    (docxLine line).kind = kindOfPdfEvents (pdfStep y line).1 := by
  rw [docxLine_kind, pdfStep_kind]

/-- C7: classification is line-count preserving: the flowing renderer adds
exactly one element per line of `split("\n")` (plus the title), the
paginated renderer draws exactly one string per line (plus the title), and
an empty line yields an empty Paragraph element that still produces one
draw. -/
theorem line_count_preserving (text name : Str) :
    (create_docx text name).length = (splitNl text).length + 1 ∧
    countDraws (create_pdf text name) = (splitNl text).length + 1 ∧
    docxLine [] = DocxElem.para [] ∧
    (∀ y : Int, firstDrawText (pdfStep y []).1 = some [] ∧
      countDraws (pdfStep y []).1 = 1) := by
  refine ⟨?_, ?_, rfl, fun y => ⟨pdfStep_firstDrawText y [], pdfStep_countDraws y []⟩⟩
  · simp [create_docx]
  · unfold create_pdf
    rw [countDraws_append, countDraws_append, pdfBody_countDraws]
    simp [countDraws, isDraw]
    omega

/-- C8: classification and both renderers are total over all input
strings; the empty string splits into a single empty line, classifies to a
single empty Paragraph, and both renderers still produce output (the docx
element list and the pdf event list are non-trivial for every input). -/
theorem renderers_total_on_empty (text name : Str) :
    splitNl [] = [[]] ∧
    create_docx [] name = [DocxElem.heading0 (name ++ titleSuffix), DocxElem.para []] ∧
    create_pdf [] name =
      [PdfEvent.setFont "Helvetica-Bold" 16,
       PdfEvent.drawString 40 752 (name ++ titleSuffix),
       PdfEvent.setFont "Helvetica" 12,
       PdfEvent.setFont "Helvetica" 12,
       PdfEvent.drawString 40 722 [],
       PdfEvent.showPage] ∧
    1 ≤ (create_docx text name).length ∧
    1 ≤ countDraws (create_pdf text name) := by
  refine ⟨rfl, rfl, rfl, by simp [create_docx], ?_⟩
  unfold create_pdf
  rw [countDraws_append, countDraws_append, pdfBody_countDraws]
  simp [countDraws, isDraw]

/-- C1 counterexample: the stated precedence fails on the code: a line
whose trimmed content starts with the heading marker but which carries
leading whitespace is rendered as a Paragraph, not a Heading; the flowing
renderer keeps the bullet marker in the bullet's content instead of
stripping it; the paginated renderer strips every dash of a bullet line,
not just the marker and one separator; and the heading branch strips every
occurrence of the marker, not just the leading one. -/
theorem classification_precedence_counterexample :
    docxLine "  ### Summary".data = DocxElem.para "### Summary".data ∧
    (docxLine "  ### Summary".data).kind ≠ Kind.heading ∧
    docxLine "- Did X".data = DocxElem.bulletPara "- Did X".data ∧
    "- Did X".data ≠ "Did X".data ∧
    firstDrawText (pdfStep 722 "- a-b".data).1 = some (bulletGlyph ++ "ab".data) ∧
    docxLine "### A ###".data = DocxElem.heading1 "A".data := by decide

/-- C1 (amended): both renderers classify on the raw, untrimmed line: a
raw prefix `"###"` gives a Heading whose content is the line with every
`"###"` occurrence removed and then stripped; otherwise a raw prefix `"-"`
gives a Bullet whose content is the whole stripped line (marker kept) in
the flowing renderer and, in the paginated renderer, the bullet glyph
followed by the line with every dash removed and then stripped; otherwise
the line is a stripped Paragraph. -/
theorem classification_precedence (line : Str) (y : Int) :
    docxLine line = flowElemSpec line ∧
    firstDrawText (pdfStep y line).1 = some (pagedTextSpec line) := by
  refine ⟨?_, pdfStep_firstDrawText y line⟩
  unfold docxLine flowElemSpec lineKind
  by_cases h1 : startswith line hash3 <;> by_cases h2 : startswith line dash1 <;>
    simp [h1, h2, headingContent]

theorem pdfDrawLine_firstDrawY (y1 : Int) (line : Str) :
    firstDrawY (pdfDrawLine y1 line).1 = some y1 := by
  unfold pdfDrawLine
  by_cases h1 : startswith line hash3 <;> by_cases h2 : startswith line dash1 <;>
    simp [h1, h2, firstDrawY]

theorem pdfDrawLine_no_showPage (y1 : Int) (line : Str) :
    ((pdfDrawLine y1 line).1.any isShowPage) = false := by
  unfold pdfDrawLine
  by_cases h1 : startswith line hash3 <;> by_cases h2 : startswith line dash1 <;>
    simp [h1, h2, isShowPage]

theorem firstDrawY_cons_showPage (es : List PdfEvent) :
    firstDrawY (PdfEvent.showPage :: es) = firstDrawY es := rfl

/-- C2 counterexample: a line arriving with the cursor exactly at the
bottom-margin threshold (y = 40) does NOT trigger a page break: the strict
`<` check fails at equality, no `showPage` is emitted, the content is
drawn at y = 40 and the cursor moves on to 25. -/
theorem threshold_no_break_counterexample :
    (pdfStep 40 "x".data).1 =
      [PdfEvent.setFont "Helvetica" 12, PdfEvent.drawString 40 40 "x".data] ∧
    ((pdfStep 40 "x".data).1.any isShowPage) = false ∧
    (pdfStep 40 "x".data).2 = 25 := by decide

/-- C2 (amended): the page-break check runs before each line's content is
placed and compares the cursor with the strict `<` against the bottom
margin 40: a break (a leading `showPage`, with the draw repositioned to
the top margin 752) is emitted exactly when the incoming cursor is
strictly below 40; a line arriving exactly at the threshold does not
break and is drawn at the threshold. -/
theorem page_break_semantics (y : Int) (line : Str) :
    ((pdfStep y line).1.any isShowPage = decide (y < 40)) ∧
    (y < 40 → (pdfStep y line).1.head? = some PdfEvent.showPage ∧
      firstDrawY (pdfStep y line).1 = some (letterHeight - 40)) ∧
    (40 ≤ y → ((pdfStep y line).1.any isShowPage) = false ∧
      firstDrawY (pdfStep y line).1 = some y) := by
  by_cases hy : y < 40
  · have hpair : pdfStep y line =
        (PdfEvent.showPage :: (pdfDrawLine (letterHeight - 40) line).1,
         (pdfDrawLine (letterHeight - 40) line).2) := by
      unfold pdfStep; rw [if_pos hy]
    rw [hpair]
    refine ⟨?_, fun _ => ⟨rfl, ?_⟩, fun hge => absurd hy (by omega)⟩
    · simp [isShowPage, hy]
    · rw [firstDrawY_cons_showPage, pdfDrawLine_firstDrawY]
  · have hpair : pdfStep y line = pdfDrawLine y line := by
      unfold pdfStep; rw [if_neg hy]
    rw [hpair]
    refine ⟨?_, fun hlt => absurd hlt hy,
      fun _ => ⟨pdfDrawLine_no_showPage y line, pdfDrawLine_firstDrawY y line⟩⟩
    rw [pdfDrawLine_no_showPage]
    simp [hy]

/-- C2 witness: at cursor 10 (strictly below the margin) the break fires:
`showPage` leads the events and the line is drawn at the top margin 752. -/
theorem page_break_semantics_witness :
    (pdfStep 10 "x".data).1.head? = some PdfEvent.showPage ∧
    firstDrawY (pdfStep 10 "x".data).1 = some (letterHeight - 40) :=
  (page_break_semantics 10 "x".data).2.1 (by decide)

/-- C4 counterexample: on the spec's example lines the flowing renderer's
bullet element keeps the marker: its content is "- Did X", not "Did X". -/
theorem demo_bullet_marker_kept_counterexample :
    (create_docx demoResume "Jane Doe".data).get? 2 =
      some (DocxElem.bulletPara "- Did X".data) ∧
    "- Did X".data ≠ "Did X".data := by decide

/-- C4 (amended): on `["### Summary", "- Did X", "Plain text"]` the kinds
are Heading, Bullet, Paragraph in both renderers, with heading content
"Summary" and paragraph content "Plain text" in both; the bullet content
is "Did X" (after the glyph) in the paginated renderer but "- Did X"
(marker kept) in the flowing renderer. -/
theorem demo_lines_render (name : Str) :
    create_docx demoResume name =
      [DocxElem.heading0 (name ++ titleSuffix),
       DocxElem.heading1 "Summary".data,
       DocxElem.bulletPara "- Did X".data,
       DocxElem.para "Plain text".data] ∧
    create_pdf demoResume name =
      [PdfEvent.setFont "Helvetica-Bold" 16,
       PdfEvent.drawString 40 752 (name ++ titleSuffix),
       PdfEvent.setFont "Helvetica" 12,
       PdfEvent.setFont "Helvetica-Bold" 14,
       PdfEvent.drawString 40 722 "Summary".data,
       PdfEvent.setFont "Helvetica" 12,
       PdfEvent.drawString 50 702 (bulletGlyph ++ "Did X".data),
       PdfEvent.setFont "Helvetica" 12,
       PdfEvent.drawString 40 687 "Plain text".data,
       PdfEvent.showPage] := ⟨rfl, rfl⟩

/-- C5 counterexample: classification uses the raw line, not its trimmed
form: "  ### Summary" (leading whitespace before the marker) is classified
and rendered as a Paragraph in both renderers, not as a Heading. -/
theorem trimmed_heading_counterexample :
    docxLine "  ### Summary".data = DocxElem.para "### Summary".data ∧
    lineKind "  ### Summary".data = Kind.paragraph ∧
    kindOfPdfEvents (pdfStep 722 "  ### Summary".data).1 = Kind.paragraph ∧
    Kind.paragraph ≠ Kind.heading := by decide

/-- C5 (amended): classification is decided by the RAW line's leading
characters (no trimming first): a line whose first character is Python
whitespace is a Paragraph in both renderers even if its trimmed form
starts with a marker; the assigned kind is a pure per-line function,
independent of the paginated renderer's cursor state. -/
theorem raw_prefix_classification (c : Char) (line : Str) (y : Int)
    (h : pyIsSpace c = true) :
    docxLine (c :: line) = DocxElem.para (pyStrip (c :: line)) ∧
    kindOfPdfEvents (pdfStep y (c :: line)).1 = Kind.paragraph ∧
    (∀ y1 y2 : Int,
      kindOfPdfEvents (pdfStep y1 (c :: line)).1 =
        kindOfPdfEvents (pdfStep y2 (c :: line)).1) := by
  have hc : c = ' ' ∨ c = '\t' ∨ c = '\n' ∨ c = '\r' ∨
      c = Char.ofNat 11 ∨ c = Char.ofNat 12 := by
    have h6 := h
    simp only [pyIsSpace, Bool.or_eq_true, beq_iff_eq] at h6
    tauto
  have h3 : startswith (c :: line) hash3 = false := by
    rcases hc with rfl | rfl | rfl | rfl | rfl | rfl <;> rfl
  have hd : startswith (c :: line) dash1 = false := by
    rcases hc with rfl | rfl | rfl | rfl | rfl | rfl <;> rfl
  refine ⟨?_, ?_, fun y1 y2 => by rw [pdfStep_kind, pdfStep_kind]⟩
  · simp [docxLine, h3, hd]
  · rw [pdfStep_kind]
    simp [lineKind, h3, hd]

/-- C5 witness: the amended classification at the concrete line
"  ### Summary" (leading space, then the heading marker). -/
theorem raw_prefix_classification_witness :
    pyIsSpace ' ' = true ∧
    docxLine (' ' :: "### Summary".data) =
      DocxElem.para (pyStrip (' ' :: "### Summary".data)) ∧
    kindOfPdfEvents (pdfStep 722 (' ' :: "### Summary".data)).1 = Kind.paragraph :=
  ⟨by decide, (raw_prefix_classification ' ' "### Summary".data 722 (by decide)).1,
   (raw_prefix_classification ' ' "### Summary".data 722 (by decide)).2.1⟩

theorem pdfDrawLine_style (y1 : Int) (line : Str) :
    (pdfDrawLine y1 line).2 = y1 - advanceFor (lineKind line) ∧
    firstSetFont (pdfDrawLine y1 line).1 = some (fontFor (lineKind line)) ∧
    firstDrawX (pdfDrawLine y1 line).1 = some (drawXFor (lineKind line)) := by
  unfold pdfDrawLine lineKind
  by_cases h1 : startswith line hash3 <;> by_cases h2 : startswith line dash1 <;>
    simp [h1, h2, advanceFor, fontFor, drawXFor, firstSetFont, firstDrawX]

/-- C6 counterexample: Bullet does NOT advance the cursor by a larger step
than Paragraph: both advance by exactly 15 (the source decrements `y` by
15 in both branches), so the strict ordering heading > bullet > paragraph
claimed for the steps fails at bullet versus paragraph. -/
theorem bullet_step_counterexample :
    lineKind "- a".data = Kind.bullet ∧
    lineKind "plain".data = Kind.paragraph ∧
    (pdfStep 722 "- a".data).2 = 707 ∧
    (pdfStep 722 "plain".data).2 = 707 := by decide

/-- C6 (amended): in the paginated renderer a Heading advances the cursor
by 20 and a Bullet and a Paragraph both advance it by the same step 15
(heading strictly larger, bullet equal to paragraph); Bullets are drawn at
x = 50, further right than Paragraphs at x = 40, and prefixed with the
bullet glyph; Headings are drawn in Helvetica-Bold at size 14 versus
Helvetica 12 for the other kinds. -/
theorem style_by_kind (y : Int) (line : Str) (h : 40 ≤ y) :
    (pdfStep y line).2 = y - advanceFor (lineKind line) ∧
    firstSetFont (pdfStep y line).1 = some (fontFor (lineKind line)) ∧
    firstDrawX (pdfStep y line).1 = some (drawXFor (lineKind line)) ∧
    (lineKind line = Kind.bullet →
      firstDrawText (pdfStep y line).1 =
        some (bulletGlyph ++ pyStrip (removeDashes line))) ∧
    advanceFor Kind.heading = 20 ∧
    advanceFor Kind.bullet = advanceFor Kind.paragraph ∧
    drawXFor Kind.paragraph < drawXFor Kind.bullet ∧
    fontFor Kind.heading = ("Helvetica-Bold", 14) ∧
    fontFor Kind.paragraph = ("Helvetica", 12) := by
  have hpair : pdfStep y line = pdfDrawLine y line := by
    unfold pdfStep; rw [if_neg (by omega)]
  rw [hpair]
  obtain ⟨ha, hf, hx⟩ := pdfDrawLine_style y line
  refine ⟨ha, hf, hx, ?_, rfl, rfl, by decide, rfl, rfl⟩
  intro hb
  rw [show firstDrawText (pdfDrawLine y line).1 = firstDrawText (pdfStep y line).1 by
    rw [hpair], pdfStep_firstDrawText]
  simp [pagedTextSpec, hb]

/-- C6 witness: the amended style facts at the concrete bullet line "- a"
with the cursor at 722. -/
theorem style_by_kind_witness :
    (40 : Int) ≤ 722 ∧
    (pdfStep 722 "- a".data).2 = 722 - advanceFor (lineKind "- a".data) ∧
    firstDrawX (pdfStep 722 "- a".data).1 = some (drawXFor (lineKind "- a".data)) :=
  ⟨by decide, (style_by_kind 722 "- a".data (by decide)).1,
   (style_by_kind 722 "- a".data (by decide)).2.2.1⟩

theorem dropWhile_append_last (xs : Str) (c : Char) (h : pyIsSpace c = false) :
    ∃ t, List.dropWhile pyIsSpace (xs ++ [c]) = t ++ [c] := by
  induction xs with
  | nil => exact ⟨[], by simp [List.dropWhile_cons, h]⟩
  | cons x xs ih =>
    by_cases hx : pyIsSpace x
    · simpa [List.dropWhile_cons, hx] using ih
    · exact ⟨x :: xs, by simp [List.dropWhile_cons, hx]⟩

theorem pyStrip_cons_head (c : Char) (s : Str) (h : pyIsSpace c = false) :
    ∃ t, pyStrip (c :: s) = c :: t := by
  have h1 : lstrip (c :: s) = c :: s := by
    simp [lstrip, List.dropWhile_cons, h]
  obtain ⟨t, ht⟩ := dropWhile_append_last s.reverse c h
  refine ⟨t.reverse, ?_⟩
  unfold pyStrip
  rw [h1]
  unfold rstrip
  rw [List.reverse_cons, ht, List.reverse_append]
  simp

/-- C10: only the exact three-character marker makes a heading: a line
starting with '#' but not with "###" is classified and rendered as a plain
Paragraph by both renderers, and its rendered content still starts with
the retained '#'. -/
theorem hash_not_heading (line : Str) (y : Int)
    (h1 : startswith line ['#'] = true)
    (h3 : startswith line hash3 = false) :
    docxLine line = DocxElem.para (pyStrip line) ∧
    kindOfPdfEvents (pdfStep y line).1 = Kind.paragraph ∧
    firstDrawText (pdfStep y line).1 = some (pyStrip line) ∧
    (pyStrip line).head? = some '#' := by
  obtain ⟨rest, rfl⟩ : ∃ rest, line = '#' :: rest := by
    cases line with
    | nil => simp [startswith] at h1
    | cons c s =>
      have hc : c = '#' := by simpa [startswith] using h1
      exact ⟨s, by rw [hc]⟩
  have hd : startswith ('#' :: rest) dash1 = false := rfl
  refine ⟨by simp [docxLine, h3, hd], ?_, ?_, ?_⟩
  · rw [pdfStep_kind]
    simp [lineKind, h3, hd]
  · rw [pdfStep_firstDrawText]
    simp [pagedTextSpec, lineKind, h3, hd]
  · obtain ⟨t, ht⟩ := pyStrip_cons_head '#' rest (by decide)
    rw [ht]
    rfl

/-- C10 witness: the concrete line "# Title" starts with '#' but not with
"###" and is rendered as a Paragraph retaining the '#'. -/
theorem hash_not_heading_witness :
    startswith "# Title".data ['#'] = true ∧
    startswith "# Title".data hash3 = false ∧
    (docxLine "# Title".data = DocxElem.para (pyStrip "# Title".data) ∧
     kindOfPdfEvents (pdfStep 722 "# Title".data).1 = Kind.paragraph ∧
     firstDrawText (pdfStep 722 "# Title".data).1 = some (pyStrip "# Title".data) ∧
     (pyStrip "# Title".data).head? = some '#') :=
  ⟨by decide, by decide, hash_not_heading "# Title".data 722 (by decide) (by decide)⟩
